import Mathlib

/-!
Shallow embedding of the threejs-starter-pro repository.

Sources embedded:
- src/src/scenes/BasicScene.js (class BasicScene)
- src/unnamed/part_002 (class EnhancedScene)
- src/unnamed/part_000 (class App, two copies; the second, documented copy is embedded,
  the first is semantically identical)

Modelling conventions:
- JavaScript numbers (doubles) are modelled as rationals.
- The browser frame scheduler is modelled explicitly per scene: the field pending is the
  list of ids of this scene instance's animation-frame callbacks currently scheduled in the
  browser, and nextId is the id requestAnimationFrame hands out next (browser ids start at 1,
  never 0, which matters for the JS truthiness test if this.animationId in pause).
- Calls into the graphics library that do not change the state visible to this code
  (renderer.render, renderer.dispose, geometry.dispose, material.dispose, controls.dispose)
  are recorded as an effect trace.
- Math.sin, Math.cos, Math.PI and Date.now are environment-provided (structure Env).
-/

namespace ThreeJS

/-- Browser window dimensions (window.innerWidth and window.innerHeight). -/
structure Window where
  innerWidth : ℚ
  innerHeight : ℚ
deriving DecidableEq

/-- Ambient JavaScript environment: Math.sin, Math.cos, Math.PI (doubles modelled as
rationals, the trigonometric functions as arbitrary rational functions) and the value
Date.now returns during a tick. -/
structure Env where
  sin : ℚ → ℚ
  cos : ℚ → ℚ
  pi : ℚ
  now : ℚ

/-- A 3-component vector; models the THREE.Vector3 and THREE.Euler fields the code mutates. -/
structure Vec3 where
  x : ℚ
  y : ℚ
  z : ℚ
deriving DecidableEq

/-- The cube mesh: the transform fields the repository mutates (rotation, position, scale)
plus its material color. -/
structure Mesh where
  rotation : Vec3
  position : Vec3
  scale : Vec3
  color : Nat
deriving DecidableEq

/-- Perspective camera fields set by the code (THREE.PerspectiveCamera). -/
structure Camera where
  fov : ℚ
  aspect : ℚ
  near : ℚ
  far : ℚ
  posZ : ℚ
deriving DecidableEq

/-- WebGL renderer fields set by the code (size from setSize, shadow map flag). -/
structure Renderer where
  width : ℚ
  height : ℚ
  shadowEnabled : Bool
deriving DecidableEq

/-- OrbitControls fields configured in EnhancedScene.addOrbitControls. The field enabled
is the library default (true); the repository never writes it. -/
structure Controls where
  enabled : Bool
  enableDamping : Bool
  dampingFactor : ℚ
  enableZoom : Bool
  enablePan : Bool
  enableRotate : Bool
  maxDistance : ℚ
  minDistance : ℚ
  maxPolarAngle : ℚ
deriving DecidableEq

/-- A point light as animated by EnhancedScene.animate (position, intensity, color). -/
structure Light where
  posX : ℚ
  posY : ℚ
  posZ : ℚ
  intensity : ℚ
  color : Nat
deriving DecidableEq

/-- The material slot of a scene object as seen by the dispose traversal:
absent (falsy), a single material, or an array of materials. -/
inductive MaterialSlot where
  | absent : MaterialSlot
  | single : Nat → MaterialSlot
  | array : List Nat → MaterialSlot
deriving DecidableEq

/-- A scene-graph object as seen by scene.traverse in dispose: an optional geometry
(identified by a model-level id) and a material slot. -/
structure Obj where
  geometry : Option Nat
  material : MaterialSlot
deriving DecidableEq

/-- Externally observable calls into the graphics library. -/
inductive Effect where
  | render : Effect
  | disposeRenderer : Effect
  | disposeControls : Effect
  | disposeGeometry : Nat → Effect
  | disposeMaterial : Nat → Effect
deriving DecidableEq

/-- The library calls dispose makes for one traversed object: dispose its geometry if it
has one, then its material, handling both a single material and an array of materials
(BasicScene.js lines 204 to 217, part_002 lines 309 to 322). -/
def disposeObjEffects (o : Obj) : List Effect :=
  (match o.geometry with
   | some g => [Effect.disposeGeometry g]
   | none => []) ++
  (match o.material with
   | MaterialSlot.absent => []
   | MaterialSlot.single m => [Effect.disposeMaterial m]
   | MaterialSlot.array ms => ms.map Effect.disposeMaterial)

/-- The effect of the JS statement: if (this.animationId) cancelAnimationFrame(this.animationId).
A null id and the (never produced) id 0 are falsy and cancel nothing; otherwise the callback
with that id is removed from the browser queue. -/
def cancelPending (animationId : Option Nat) (pending : List Nat) : List Nat :=
  match animationId with
  | some i => if i = 0 then pending else pending.filter fun j => j != i
  | none => pending

/-- The single-loop regime: every callback currently scheduled for this scene is the one
recorded in animationId (and its id is truthy). This holds for all states produced by
init, fireFrame and pause alone; resume on an already animating scene breaks it. -/
def trackedPend (animationId : Option Nat) (pending : List Nat) : Prop :=
  ∀ i ∈ pending, animationId = some i ∧ i ≠ 0

instance (aid : Option Nat) (p : List Nat) : Decidable (trackedPend aid p) :=
  inferInstanceAs (Decidable (∀ i ∈ p, aid = some i ∧ i ≠ 0))

/-- State of a BasicScene object (BasicScene.js). The fields pending and nextId model the
browser scheduler as described in the file header; instId is a model-level object identity
tag (which `new BasicScene()` produced this object). -/
structure BasicScene where
  scene : Option (List Obj)
  camera : Option Camera
  renderer : Option Renderer
  cube : Option Mesh
  animationId : Option Nat
  isAnimating : Bool
  pending : List Nat
  nextId : Nat
  instId : Nat
deriving DecidableEq

namespace BasicScene

/-- The BasicScene constructor (BasicScene.js lines 12 to 24): all component fields null,
isAnimating false. -/
def mkNew (id : Nat) : BasicScene :=
  { scene := none, camera := none, renderer := none, cube := none,
    animationId := none, isAnimating := false, pending := [], nextId := 1, instId := id }

/-- The basic scene graph in traversal order after init: the scene root, the cube
(geometry id 0, single material id 0), and the three lights (no geometry, no material).
Geometry and material ids are model-level identities. -/
def basicSceneObjects : List Obj :=
  [ { geometry := none, material := MaterialSlot.absent },
    { geometry := some 0, material := MaterialSlot.single 0 },
    { geometry := none, material := MaterialSlot.absent },
    { geometry := none, material := MaterialSlot.absent },
    { geometry := none, material := MaterialSlot.absent } ]

/-- One invocation of BasicScene.animate (lines 139 to 153): return immediately unless
isAnimating; otherwise schedule the next frame (requestAnimationFrame), rotate the cube by
0.005 on x and y if it exists, and render once. -/
def animate (s : BasicScene) : BasicScene × List Effect :=
  if s.isAnimating = false then (s, [])
  else
    let s1 : BasicScene :=
      { s with pending := s.pending ++ [s.nextId], animationId := some s.nextId,
               nextId := s.nextId + 1 }
    let s2 : BasicScene :=
      match s1.cube with
      | some c =>
          { s1 with cube := some { c with rotation :=
              { c.rotation with x := c.rotation.x + 1/200, y := c.rotation.y + 1/200 } } }
      | none => s1
    (s2, [Effect.render])

/-- BasicScene.pause (lines 158 to 163): clear isAnimating, then cancel the callback whose
id is stored in animationId if that id is truthy. -/
def pause (s : BasicScene) : BasicScene :=
  { s with isAnimating := false, pending := cancelPending s.animationId s.pending }

/-- BasicScene.resume (lines 168 to 171): set isAnimating and call animate, unconditionally. -/
def resume (s : BasicScene) : BasicScene × List Effect :=
  animate { s with isAnimating := true }

/-- The browser fires the scheduled frame callback with id i: it is dequeued and the
callback (an arrow function invoking this.animate) runs. -/
def fireFrame (i : Nat) (s : BasicScene) : BasicScene × List Effect :=
  if i ∈ s.pending then animate { s with pending := s.pending.erase i }
  else (s, [])

/-- BasicScene.init (lines 30 to 53): look up the container and return early when it does
not exist; otherwise create the scene, camera (fov 75, aspect from the window, near 0.1,
far 1000, z 5), renderer (window size, shadows), the cube at the origin with color 0x6366f1,
the lights, then set isAnimating and call animate. -/
def init (dom : List String) (containerId : String) (w : Window) (s : BasicScene) :
    BasicScene × List Effect :=
  if containerId ∈ dom then
    let s1 : BasicScene := { s with scene := some basicSceneObjects }
    let s2 : BasicScene :=
      { s1 with camera := some { fov := 75, aspect := w.innerWidth / w.innerHeight,
                                 near := 1/10, far := 1000, posZ := 5 } }
    let s3 : BasicScene :=
      { s2 with renderer := some { width := w.innerWidth, height := w.innerHeight,
                                   shadowEnabled := true } }
    let s4 : BasicScene :=
      { s3 with cube := some { rotation := { x := 0, y := 0, z := 0 },
                               position := { x := 0, y := 0, z := 0 },
                               scale := { x := 1, y := 1, z := 1 },
                               color := 0x6366f1 } }
    animate { s4 with isAnimating := true }
  else (s, [])

/-- BasicScene.onWindowResize (lines 177 to 186): a no-op when camera or renderer is null;
otherwise update the camera aspect ratio and the renderer size from the window. -/
def onWindowResize (w : Window) (s : BasicScene) : BasicScene :=
  match s.camera, s.renderer with
  | some cam, some r =>
      { s with camera := some { cam with aspect := w.innerWidth / w.innerHeight },
               renderer := some { r with width := w.innerWidth, height := w.innerHeight } }
  | some _, none => s
  | none, _ => s

/-- BasicScene.dispose (lines 192 to 220): pause, dispose the renderer if present, then
traverse the scene disposing each object's geometry and materials. -/
def dispose (s : BasicScene) : BasicScene × List Effect :=
  let s1 := pause s
  let rendererEff : List Effect :=
    match s1.renderer with
    | some _ => [Effect.disposeRenderer]
    | none => []
  let sceneEff : List Effect :=
    match s1.scene with
    | some objs => (objs.map disposeObjEffects).flatten
    | none => []
  (s1, rendererEff ++ sceneEff)

end BasicScene

/-- State of an EnhancedScene object (part_002). Same browser-scheduler and identity
conventions as BasicScene; wireframeVisible models this.wireframe.visible, particles the
rotation of the particle system, lights the five animated point lights. -/
structure EnhancedScene where
  scene : Option (List Obj)
  camera : Option Camera
  renderer : Option Renderer
  cube : Option Mesh
  wireframeVisible : Bool
  controls : Option Controls
  lights : List Light
  particles : Option Vec3
  animationId : Option Nat
  isAnimating : Bool
  rotationSpeed : ℚ
  mouseX : ℚ
  mouseY : ℚ
  targetRotationX : ℚ
  targetRotationY : ℚ
  pending : List Nat
  nextId : Nat
  instId : Nat
deriving DecidableEq

namespace EnhancedScene

/-- The EnhancedScene constructor (part_002 lines 5 to 18): nulls, isAnimating false,
rotationSpeed 0.01, mouse and target rotations 0. -/
def mkNew (id : Nat) : EnhancedScene :=
  { scene := none, camera := none, renderer := none, cube := none,
    wireframeVisible := true, controls := none, lights := [], particles := none,
    animationId := none, isAnimating := false, rotationSpeed := 1/100,
    mouseX := 0, mouseY := 0, targetRotationX := 0, targetRotationY := 0,
    pending := [], nextId := 1, instId := id }

/-- The enhanced scene graph in traversal order after init: root; cube (geometry 0,
material 0) with its wireframe child (geometry 1, material 1); ambient light; five point
lights; directional light; particle system (geometry 2, material 2). -/
def enhancedSceneObjects : List Obj :=
  [ { geometry := none, material := MaterialSlot.absent },
    { geometry := some 0, material := MaterialSlot.single 0 },
    { geometry := some 1, material := MaterialSlot.single 1 },
    { geometry := none, material := MaterialSlot.absent },
    { geometry := none, material := MaterialSlot.absent },
    { geometry := none, material := MaterialSlot.absent },
    { geometry := none, material := MaterialSlot.absent },
    { geometry := none, material := MaterialSlot.absent },
    { geometry := none, material := MaterialSlot.absent },
    { geometry := none, material := MaterialSlot.absent },
    { geometry := some 2, material := MaterialSlot.single 2 } ]

/-- The five point light colors of addEnhancedLights (part_002 line 105). -/
def lightColors : List Nat := [0x6366f1, 0x8b5cf6, 0x06b6d4, 0x10b981, 0x64748b]

/-- Initial point lights (part_002 lines 108 to 117): light i sits at angle (i/5) * 2 * pi
on a circle of radius 8 at z 5, intensity 0.8. -/
def initialLights (env : Env) : List Light :=
  (List.range 5).map fun (i : Nat) =>
    let angle : ℚ := ((i : ℚ) / 5) * env.pi * 2
    { posX := env.cos angle * 8, posY := env.sin angle * 8, posZ := 5,
      intensity := 4/5, color := lightColors.getD i 0 }

/-- The read of this.controls.enabled inside the cube branch of animate (part_002 line 249).
The source performs it without a null check; in every state in which the cube exists the
controls exist too (both are created only by init), so the default for the controls-null
case models a state the code cannot reach with a non-null cube. -/
def controlsEnabledFlag (s : EnhancedScene) : Bool :=
  (s.controls.map fun c => c.enabled).getD true

/-- One invocation of EnhancedScene.animate (part_002 lines 228 to 272): return unless
isAnimating; schedule the next frame; update controls (no modelled state); rotate the cube
by rotationSpeed on x and y, float it on y with a sine of the time, and apply the mouse
smoothing only when controls are disabled; re-position the five lights on the circle and
pulse their intensity; rotate the particles by 0.002; render once. -/
def animate (env : Env) (s : EnhancedScene) : EnhancedScene × List Effect :=
  if s.isAnimating = false then (s, [])
  else
    let s1 : EnhancedScene :=
      { s with pending := s.pending ++ [s.nextId], animationId := some s.nextId,
               nextId := s.nextId + 1 }
    let time : ℚ := env.now * (1/1000)
    let s2 : EnhancedScene :=
      match s1.cube with
      | some c =>
          let c1 : Mesh :=
            { c with rotation := { c.rotation with
                x := c.rotation.x + s1.rotationSpeed,
                y := c.rotation.y + s1.rotationSpeed } }
          let c2 : Mesh :=
            { c1 with position := { c1.position with y := env.sin (time * (1/2)) * (3/10) } }
          let c3 : Mesh :=
            if controlsEnabledFlag s1 = false then
              { c2 with rotation := { c2.rotation with
                  x := c2.rotation.x + (s1.targetRotationX - c2.rotation.x) * (1/20),
                  y := c2.rotation.y + (s1.targetRotationY - c2.rotation.y) * (1/20) } }
            else c2
          { s1 with cube := some c3 }
      | none => s1
    let n : ℚ := (s2.lights.length : ℚ)
    let s3 : EnhancedScene :=
      { s2 with lights := s2.lights.mapIdx fun i l =>
          let angle : ℚ := time * (1/2) + ((i : ℚ) / n) * env.pi * 2
          { l with posX := env.cos angle * 8, posY := env.sin angle * 8,
                   intensity := 4/5 + env.sin (time * 2 + (i : ℚ)) * (3/10) } }
    let s4 : EnhancedScene :=
      match s3.particles with
      | some p => { s3 with particles := some { p with x := p.x + 1/500, y := p.y + 1/500 } }
      | none => s3
    (s4, [Effect.render])

/-- EnhancedScene.pause (part_002 lines 274 to 279): same shape as BasicScene.pause. -/
def pause (s : EnhancedScene) : EnhancedScene :=
  { s with isAnimating := false, pending := cancelPending s.animationId s.pending }

/-- EnhancedScene.resume (part_002 lines 281 to 284): set isAnimating and call animate,
unconditionally. -/
def resume (env : Env) (s : EnhancedScene) : EnhancedScene × List Effect :=
  animate env { s with isAnimating := true }

/-- The browser fires the scheduled frame callback with id i for this scene. -/
def fireFrame (env : Env) (i : Nat) (s : EnhancedScene) : EnhancedScene × List Effect :=
  if i ∈ s.pending then animate env { s with pending := s.pending.erase i }
  else (s, [])

/-- EnhancedScene.init (part_002 lines 20 to 66). Unlike BasicScene.init it performs no
null check on the container (the code dereferences it unconditionally; App only ever passes
the id enhanced-scene, which exists in the document). Creates scene, camera (z 6), renderer,
cube with wireframe child, lights, particles, orbit controls (enabled is the library
default), binds the control and mouse listeners (pure registrations), then sets isAnimating
and calls animate. -/
def init (env : Env) (w : Window) (s : EnhancedScene) : EnhancedScene × List Effect :=
  let s1 : EnhancedScene :=
    { s with
      scene := some enhancedSceneObjects,
      camera := some { fov := 75, aspect := w.innerWidth / w.innerHeight,
                       near := 1/10, far := 1000, posZ := 6 },
      renderer := some { width := w.innerWidth, height := w.innerHeight,
                         shadowEnabled := true },
      cube := some { rotation := { x := 0, y := 0, z := 0 },
                     position := { x := 0, y := 0, z := 0 },
                     scale := { x := 1, y := 1, z := 1 },
                     color := 0x6366f1 },
      wireframeVisible := true,
      lights := initialLights env,
      particles := some { x := 0, y := 0, z := 0 },
      controls := some { enabled := true, enableDamping := true, dampingFactor := 1/20,
                         enableZoom := true, enablePan := true, enableRotate := true,
                         maxDistance := 20, minDistance := 2, maxPolarAngle := env.pi } }
  animate env { s1 with isAnimating := true }

/-- The rotation-speed input listener (part_002 lines 180 to 183):
this.rotationSpeed = parseFloat(e.target.value), with the parsed value modelled as v. -/
def onRotationSpeedInput (v : ℚ) (s : EnhancedScene) : EnhancedScene :=
  { s with rotationSpeed := v }

/-- The color input listener (part_002 lines 186 to 190): set the cube material color to
the chosen color (the source dereferences this.cube without a null check; cube-null states
cannot reach this listener since bindControls runs only inside init). -/
def onColorInput (c : Nat) (s : EnhancedScene) : EnhancedScene :=
  { s with cube := s.cube.map fun m => { m with color := c } }

/-- The wireframe checkbox listener (part_002 lines 193 to 196). -/
def onWireframeChange (b : Bool) (s : EnhancedScene) : EnhancedScene :=
  { s with wireframeVisible := b }

/-- The scale input listener (part_002 lines 199 to 203): set the cube scale uniformly to
the parsed value. -/
def onScaleInput (v : ℚ) (s : EnhancedScene) : EnhancedScene :=
  { s with cube := s.cube.map fun m => { m with scale := { x := v, y := v, z := v } } }

/-- The mousemove listener (part_002 lines 209 to 215). -/
def onMouseMove (clientX clientY : ℚ) (w : Window) (s : EnhancedScene) : EnhancedScene :=
  let mx : ℚ := (clientX / w.innerWidth) * 2 - 1
  let my : ℚ := 0 - ((clientY / w.innerHeight) * 2 - 1)
  { s with mouseX := mx, mouseY := my,
           targetRotationX := my * (1/2), targetRotationY := mx * (1/2) }

/-- EnhancedScene.onWindowResize (part_002 lines 286 to 296): a no-op when camera or
renderer is null; otherwise update camera aspect, renderer size, and the controls. -/
def onWindowResize (w : Window) (s : EnhancedScene) : EnhancedScene :=
  match s.camera, s.renderer with
  | some cam, some r =>
      { s with camera := some { cam with aspect := w.innerWidth / w.innerHeight },
               renderer := some { r with width := w.innerWidth, height := w.innerHeight } }
  | some _, none => s
  | none, _ => s

/-- EnhancedScene.dispose (part_002 lines 298 to 323): pause, dispose the orbit controls
if present, dispose the renderer if present, then traverse the scene disposing geometries
and materials. -/
def dispose (s : EnhancedScene) : EnhancedScene × List Effect :=
  let s1 := pause s
  let controlsEff : List Effect :=
    match s1.controls with
    | some _ => [Effect.disposeControls]
    | none => []
  let rendererEff : List Effect :=
    match s1.renderer with
    | some _ => [Effect.disposeRenderer]
    | none => []
  let sceneEff : List Effect :=
    match s1.scene with
    | some objs => (objs.map disposeObjEffects).flatten
    | none => []
  (s1, controlsEff ++ rendererEff ++ sceneEff)

end EnhancedScene

/-- The two UI views of the application. -/
inductive View where
  | basic : View
  | enhanced : View
deriving DecidableEq

/-- Modelled from the spec: the repository's HTML document is not under src; per the spec
there are two mutually exclusive UI panels (basic-view, enhanced-view), each with a scene
container, plus the two navigation buttons and the four enhanced controls. We model a
document in which every element id the code looks up exists, and in which the basic panel
initially carries the active class. -/
def stdDom : List String :=
  ["basic-scene", "enhanced-scene", "basic-view", "enhanced-view",
   "enhanced-btn", "back-btn", "rotation-speed", "cube-color", "wireframe", "scale"]

/-- State of the App object (part_000): the two owned scene instances, the current view,
the active CSS class of each view panel, and model-level counters: ctr is the next fresh
object identity, basicCreated and enhCreated count constructor invocations of each scene
class. -/
structure AppState where
  basicScene : Option BasicScene
  enhancedScene : Option EnhancedScene
  currentView : View
  basicViewActive : Bool
  enhancedViewActive : Bool
  ctr : Nat
  basicCreated : Nat
  enhCreated : Nat
deriving DecidableEq

namespace App

/-- App construction and App.init (part_000 lines 104 to 144): construct and init the
basic scene; currentView starts as basic; the basic panel is active per the document. -/
def initApp (w : Window) : AppState :=
  let b := (BasicScene.init stdDom "basic-scene" w (BasicScene.mkNew 0)).1
  { basicScene := some b, enhancedScene := none, currentView := View.basic,
    basicViewActive := true, enhancedViewActive := false,
    ctr := 1, basicCreated := 1, enhCreated := 0 }

/-- App.initializeEnhancedScene (part_000 lines 150 to 160): construct and init the
enhanced scene only when it does not exist yet (lazy loading). -/
def ensureEnhancedScene (env : Env) (w : Window) (a : AppState) : AppState :=
  match a.enhancedScene with
  | some _ => a
  | none =>
      { a with enhancedScene := some ((EnhancedScene.init env w (EnhancedScene.mkNew a.ctr)).1),
               ctr := a.ctr + 1, enhCreated := a.enhCreated + 1 }

/-- App.showEnhancedView (part_000 lines 237 to 257): deactivate the basic panel, activate
the enhanced panel, lazily create the enhanced scene, pause the basic scene if present,
resume the enhanced scene if present, set currentView to enhanced. -/
def showEnhancedView (env : Env) (w : Window) (a : AppState) : AppState :=
  let a1 : AppState := { a with basicViewActive := false }
  let a2 : AppState := { a1 with enhancedViewActive := true }
  let a3 : AppState := ensureEnhancedScene env w a2
  let a4 : AppState := { a3 with basicScene := a3.basicScene.map BasicScene.pause }
  let a5 : AppState :=
    match a4.enhancedScene with
    | some e => { a4 with enhancedScene := some ((EnhancedScene.resume env e).1) }
    | none => a4
  { a5 with currentView := View.enhanced }

/-- App.showBasicView (part_000 lines 263 to 280): deactivate the enhanced panel, activate
the basic panel, pause the enhanced scene if present, resume the basic scene if present,
set currentView to basic. -/
def showBasicView (a : AppState) : AppState :=
  let a1 : AppState := { a with enhancedViewActive := false }
  let a2 : AppState := { a1 with basicViewActive := true }
  let a3 : AppState := { a2 with enhancedScene := a2.enhancedScene.map EnhancedScene.pause }
  let a4 : AppState :=
    match a3.basicScene with
    | some b => { a3 with basicScene := some ((BasicScene.resume b).1) }
    | none => a3
  { a4 with currentView := View.basic }

/-- App.handleWindowResize (part_000 lines 221 to 231): route the resize to the basic
scene when the current view is basic and that scene exists, else to the enhanced scene
when the current view is enhanced and that scene exists, else do nothing. -/
def handleWindowResize (w : Window) (a : AppState) : AppState :=
  if a.currentView = View.basic then
    match a.basicScene with
    | some b => { a with basicScene := some (BasicScene.onWindowResize w b) }
    | none => a
  else if a.currentView = View.enhanced then
    match a.enhancedScene with
    | some e => { a with enhancedScene := some (EnhancedScene.onWindowResize w e) }
    | none => a
  else a

/-- Which view-switch button was clicked. -/
inductive SwitchKind where
  | toEnhanced : SwitchKind
  | toBasic : SwitchKind

/-- One view-switch event together with the ambient environment and window at the moment
it is handled. -/
structure SwitchEv where
  kind : SwitchKind
  env : Env
  win : Window

/-- Dispatch one view-switch event (the two button click listeners of bindEvents). -/
def step (ev : SwitchEv) (a : AppState) : AppState :=
  match ev.kind with
  | SwitchKind.toEnhanced => showEnhancedView ev.env ev.win a
  | SwitchKind.toBasic => showBasicView a

/-- Run a sequence of view-switch events. -/
def runSwitches (evs : List SwitchEv) (a : AppState) : AppState :=
  evs.foldl (fun s ev => step ev s) a

/-- The mutual-exclusion invariant of the two view panels: exactly the panel of the
current view is active, and the scene of the other view, when it exists, is paused. -/
def viewInvariant (a : AppState) : Bool :=
  match a.currentView with
  | View.basic =>
      a.basicViewActive && !a.enhancedViewActive &&
      (match a.enhancedScene with
       | some e => !e.isAnimating
       | none => true)
  | View.enhanced =>
      a.enhancedViewActive && !a.basicViewActive &&
      (match a.basicScene with
       | some b => !b.isAnimating
       | none => true)

/-- The single-ownership invariant: the basic scene is instance 0 and was constructed
exactly once; the enhanced scene is constructed at most once, as instance 1, and its
construction count matches its existence. -/
def ownershipInv (a : AppState) : Bool :=
  (match a.basicScene with
   | some b => b.instId == 0
   | none => false) &&
  (a.basicCreated == 1) &&
  (match a.enhancedScene with
   | some e => (e.instId == 1) && (a.enhCreated == 1) && (a.ctr == 2)
   | none => (a.enhCreated == 0) && (a.ctr == 1))

end App

/-- A fixed sample environment for concrete runs: the trigonometric functions are the
constant zero function, pi is 3, the clock reads 0, the window is 1 by 1. -/
def e0 : Env := { sin := fun _ => 0, cos := fun _ => 0, pi := 3, now := 0 }

/-- A fixed sample window for concrete runs. -/
def w0 : Window := { innerWidth := 1, innerHeight := 1 }

/-- The app state right after the first showEnhancedView call of a freshly started app
(in the sample environment). -/
def appAfterFirstShow : AppState :=
  App.showEnhancedView e0 w0 (App.initApp w0)

/-- The enhanced scene object as it stands right after the first showEnhancedView call of
a freshly started app (in the sample environment). -/
def enhancedAfterFirstShow : EnhancedScene :=
  appAfterFirstShow.enhancedScene.getD (EnhancedScene.mkNew 0)

/-- A sample basic-scene state in the single-loop regime: animating, one scheduled
callback, tracked by animationId. -/
def sampleBasicRunning : BasicScene :=
  { scene := some BasicScene.basicSceneObjects,
    camera := some { fov := 75, aspect := 1, near := 1/10, far := 1000, posZ := 5 },
    renderer := some { width := 1, height := 1, shadowEnabled := true },
    cube := some { rotation := { x := 0, y := 0, z := 0 },
                   position := { x := 0, y := 0, z := 0 },
                   scale := { x := 1, y := 1, z := 1 }, color := 0x6366f1 },
    animationId := some 1, isAnimating := true, pending := [1], nextId := 2, instId := 0 }

/-- A sample enhanced-scene state in the single-loop regime, with an array-material object
in its scene graph so the array branch of the dispose traversal is exercised. -/
def sampleEnhancedRunning : EnhancedScene :=
  { scene := some (EnhancedScene.enhancedSceneObjects ++
      [ { geometry := some 9, material := MaterialSlot.array [7, 8] } ]),
    camera := some { fov := 75, aspect := 1, near := 1/10, far := 1000, posZ := 6 },
    renderer := some { width := 1, height := 1, shadowEnabled := true },
    cube := some { rotation := { x := 0, y := 0, z := 0 },
                   position := { x := 0, y := 0, z := 0 },
                   scale := { x := 1, y := 1, z := 1 }, color := 0x6366f1 },
    wireframeVisible := true,
    controls := some { enabled := true, enableDamping := true, dampingFactor := 1/20,
                       enableZoom := true, enablePan := true, enableRotate := true,
                       maxDistance := 20, minDistance := 2, maxPolarAngle := 3 },
    lights := EnhancedScene.initialLights e0,
    particles := some { x := 0, y := 0, z := 0 },
    animationId := some 1, isAnimating := true, rotationSpeed := 1/100,
    mouseX := 0, mouseY := 0, targetRotationX := 0, targetRotationY := 0,
    pending := [1], nextId := 2, instId := 1 }

/-! ## Helper lemmas -/

theorem cancelPending_idem (aid : Option Nat) (p : List Nat) :
    cancelPending aid (cancelPending aid p) = cancelPending aid p := by
  cases aid with
  | none => rfl
  | some i =>
      by_cases hi : i = 0
      · simp [cancelPending, hi]
      · simp only [cancelPending, if_neg hi]
        induction p with
        | nil => rfl
        | cons a t ih =>
            by_cases ha : (a != i) = true
            · simp [List.filter_cons, ha, ih]
            · simp [List.filter_cons, ha, ih]

theorem cancelPending_eq_nil (aid : Option Nat) (p : List Nat) (h : trackedPend aid p) :
    cancelPending aid p = [] := by
  cases aid with
  | none =>
      cases p with
      | nil => rfl
      | cons a t => exact absurd ((h a (by simp)).1) (by simp)
  | some i =>
      by_cases hi : i = 0
      · subst hi
        cases p with
        | nil => simp [cancelPending]
        | cons a t =>
            have ha := h a (by simp)
            have hai : a = 0 := by simpa using ha.1.symm
            exact absurd hai ha.2
      · simp only [cancelPending, if_neg hi]
        rw [List.filter_eq_nil_iff]
        intro a ha
        have h2 := h a ha
        have : a = i := by
          have := h2.1
          simpa using this.symm
        simp [this]

theorem pause_isAnimating_basic (s : BasicScene) : (BasicScene.pause s).isAnimating = false :=
  rfl

theorem pause_isAnimating_enhanced (s : EnhancedScene) :
    (EnhancedScene.pause s).isAnimating = false :=
  rfl

theorem animate_instId_basic (s : BasicScene) :
    ((BasicScene.animate s).1).instId = s.instId := by
  by_cases h : s.isAnimating = false
  · simp [BasicScene.animate, h]
  · simp only [BasicScene.animate, if_neg h]
    cases hc : s.cube <;> simp [hc]

theorem resume_instId_basic (s : BasicScene) :
    ((BasicScene.resume s).1).instId = s.instId := by
  have := animate_instId_basic { s with isAnimating := true }
  simpa [BasicScene.resume] using this

theorem animate_fields_enhanced (env : Env) (s : EnhancedScene) :
    ((EnhancedScene.animate env s).1).instId = s.instId ∧
    ((EnhancedScene.animate env s).1).rotationSpeed = s.rotationSpeed ∧
    ((EnhancedScene.animate env s).1).isAnimating = s.isAnimating := by
  by_cases h : s.isAnimating = false
  · simp [EnhancedScene.animate, h]
  · simp only [EnhancedScene.animate, if_neg h]
    cases hc : s.cube <;> cases hp : s.particles <;> simp [hc, hp]

theorem resume_instId_enhanced (env : Env) (s : EnhancedScene) :
    ((EnhancedScene.resume env s).1).instId = s.instId := by
  have := (animate_fields_enhanced env { s with isAnimating := true }).1
  simpa [EnhancedScene.resume] using this

theorem init_instId_enhanced (env : Env) (w : Window) (s : EnhancedScene) :
    ((EnhancedScene.init env w s).1).instId = s.instId := by
  simp only [EnhancedScene.init]
  exact (animate_fields_enhanced env _).1

/-! ## Claim theorems -/

/-- C1: the claim states that a frame callback is never double-scheduled, and in
particular that resuming the enhanced scene immediately after its init has started its
loop does not leave two concurrent animate loops. The code violates this: on the very
first showEnhancedView call of a freshly started app, init schedules callback 1 and the
subsequent resume schedules callback 2 (both pending at once), and after the browser
fires both callbacks each one reschedules itself, so callbacks 3 and 4 are again pending
at once: two concurrent animate loops persist. This theorem evaluates the code at that
failing input. -/
theorem c1_double_schedule :
    enhancedAfterFirstShow.pending = [1, 2] ∧
    ((EnhancedScene.fireFrame e0 2
        ((EnhancedScene.fireFrame e0 1 enhancedAfterFirstShow).1)).1).pending = [3, 4] := by
  constructor
  · decide
  · decide

/-- C3 counterexample: the claim says that after pause any scheduled animation-frame
callback is cancelled. In the state the code itself reaches after the first
showEnhancedView call (two callbacks pending, ids 1 and 2, animationId 2), pause cancels
only callback 2 and leaves callback 1 scheduled. -/
theorem c3_pause_leaves_callback :
    (EnhancedScene.pause enhancedAfterFirstShow).pending = [1] ∧
    ¬ (EnhancedScene.pause enhancedAfterFirstShow).pending = [] := by
  constructor
  · decide
  · decide

/-- C3 amended: after pause, isAnimating is false and the callback recorded in
animationId is cancelled; in the single-loop regime (every pending callback is the one
recorded in animationId, which holds unless resume was called on an already-running
scene) no callback remains scheduled; and every subsequent animate invocation on a paused
scene returns immediately, mutating nothing, scheduling nothing and rendering nothing,
until resume is called. Both scene classes. -/
theorem c3_pause_stops_loop (sb : BasicScene) (se : EnhancedScene)
    (hb : trackedPend sb.animationId sb.pending)
    (he : trackedPend se.animationId se.pending) :
    (BasicScene.pause sb).isAnimating = false ∧
    (BasicScene.pause sb).pending = [] ∧
    (EnhancedScene.pause se).isAnimating = false ∧
    (EnhancedScene.pause se).pending = [] ∧
    (∀ t : BasicScene, t.isAnimating = false → BasicScene.animate t = (t, [])) ∧
    (∀ (env : Env) (u : EnhancedScene), u.isAnimating = false →
        EnhancedScene.animate env u = (u, [])) := by
  refine ⟨rfl, ?_, rfl, ?_, ?_, ?_⟩
  · simpa [BasicScene.pause] using cancelPending_eq_nil sb.animationId sb.pending hb
  · simpa [EnhancedScene.pause] using cancelPending_eq_nil se.animationId se.pending he
  · intro t ht
    simp [BasicScene.animate, ht]
  · intro env u hu
    simp [EnhancedScene.animate, hu]

/-- C3 witness: the amended theorem applied to the two concrete running sample scenes. -/
theorem c3_pause_stops_loop_witness :
    (BasicScene.pause sampleBasicRunning).pending = [] ∧
    (EnhancedScene.pause sampleEnhancedRunning).pending = [] := by
  have h := c3_pause_stops_loop sampleBasicRunning sampleEnhancedRunning
    (by decide) (by decide)
  exact ⟨h.2.1, h.2.2.2.1⟩

/-- C8: when BasicScene.init is called with a containerId for which no DOM element
exists, it returns early: the state is unchanged and no library call is made; in
particular, on a freshly constructed scene every component field remains null and
isAnimating remains false. The embedding is a total function, so no exception occurs. -/
theorem c8_init_missing_container (dom : List String) (cid : String) (w : Window)
    (s : BasicScene) (h : cid ∉ dom) :
    BasicScene.init dom cid w s = (s, []) ∧
    ((BasicScene.init dom cid w (BasicScene.mkNew 0)).1.scene = none ∧
     (BasicScene.init dom cid w (BasicScene.mkNew 0)).1.camera = none ∧
     (BasicScene.init dom cid w (BasicScene.mkNew 0)).1.renderer = none ∧
     (BasicScene.init dom cid w (BasicScene.mkNew 0)).1.cube = none ∧
     (BasicScene.init dom cid w (BasicScene.mkNew 0)).1.isAnimating = false) := by
  refine ⟨?_, ?_⟩
  · simp [BasicScene.init, h]
  · simp [BasicScene.init, h, BasicScene.mkNew]

/-- C8 witness: the theorem applied to the modelled standard document and a container id
that does not occur in it. -/
theorem c8_init_missing_container_witness :
    BasicScene.init stdDom "no-such-container" w0 (BasicScene.mkNew 0) =
      (BasicScene.mkNew 0, []) :=
  (c8_init_missing_container stdDom "no-such-container" w0 (BasicScene.mkNew 0)
    (by decide)).1

/-- C9: pause is idempotent on both scene classes: a second pause (including a pause
before any frame was ever scheduled, when animationId is null) leaves the state exactly
as after the first, and the embedding is a total function, so pause never throws. -/
theorem c9_pause_idempotent :
    (∀ s : BasicScene, BasicScene.pause (BasicScene.pause s) = BasicScene.pause s) ∧
    (∀ s : EnhancedScene, EnhancedScene.pause (EnhancedScene.pause s) =
      EnhancedScene.pause s) := by
  constructor
  · intro s
    simp [BasicScene.pause, cancelPending_idem]
  · intro s
    simp [EnhancedScene.pause, cancelPending_idem]

/-- C4: while the basic scene is animating and the cube exists, each animate tick
increments the cube rotation on x and y by exactly 0.005 each, leaves the cube position
unchanged, renders exactly once; and init places the cube at the origin, where it stays. -/
theorem c4_basic_tick (s : BasicScene) (c : Mesh)
    (h1 : s.isAnimating = true) (h2 : s.cube = some c) :
    ((BasicScene.animate s).1).cube = some { c with rotation :=
        { c.rotation with x := c.rotation.x + 1/200, y := c.rotation.y + 1/200 } } ∧
    (((BasicScene.animate s).1).cube.map Mesh.position) = some c.position ∧
    (BasicScene.animate s).2 = [Effect.render] ∧
    (∀ (dom : List String) (cid : String) (w : Window) (s0 : BasicScene), cid ∈ dom →
      ((BasicScene.init dom cid w s0).1).cube.map Mesh.position =
        some { x := 0, y := 0, z := 0 }) := by
  refine ⟨?_, ?_, ?_, ?_⟩
  · simp [BasicScene.animate, h1, h2]
  · simp [BasicScene.animate, h1, h2]
  · simp [BasicScene.animate, h1, h2]
  · intro dom cid w s0 hmem
    simp [BasicScene.init, hmem, BasicScene.animate]

/-- C4 witness: one tick of the concrete running basic scene. -/
theorem c4_basic_tick_witness :
    ((BasicScene.animate sampleBasicRunning).1).cube.map Mesh.position =
      some { x := 0, y := 0, z := 0 } ∧
    ((BasicScene.init stdDom "basic-scene" w0 (BasicScene.mkNew 0)).1).cube.map
      Mesh.position = some { x := 0, y := 0, z := 0 } := by
  have h := c4_basic_tick sampleBasicRunning
    { rotation := { x := 0, y := 0, z := 0 }, position := { x := 0, y := 0, z := 0 },
      scale := { x := 1, y := 1, z := 1 }, color := 0x6366f1 } (by decide) (by decide)
  exact ⟨h.2.1, h.2.2.2 stdDom "basic-scene" w0 (BasicScene.mkNew 0) (by decide)⟩

/-- C6: in the enhanced view the user controls take effect as stated: a rotation-speed
input with parsed value v sets rotationSpeed to v, which animate never changes, and every
tick (cube present, controls present and enabled, as init leaves them) increments the
cube rotation on x and y by exactly the current rotationSpeed; a color input sets the
cube material color; a scale input with parsed value sc sets the cube scale uniformly. -/
theorem c6_enhanced_controls (env : Env) (s : EnhancedScene) (c : Mesh) (ctl : Controls)
    (v sc : ℚ) (col : Nat)
    (h1 : s.isAnimating = true) (h2 : s.cube = some c)
    (h3 : s.controls = some ctl) (h4 : ctl.enabled = true) :
    (EnhancedScene.onRotationSpeedInput v s).rotationSpeed = v ∧
    (EnhancedScene.onRotationSpeedInput v s).cube = s.cube ∧
    ((EnhancedScene.animate env s).1).rotationSpeed = s.rotationSpeed ∧
    (((EnhancedScene.animate env s).1).cube.map fun m => m.rotation.x) =
      some (c.rotation.x + s.rotationSpeed) ∧
    (((EnhancedScene.animate env s).1).cube.map fun m => m.rotation.y) =
      some (c.rotation.y + s.rotationSpeed) ∧
    ((EnhancedScene.onColorInput col s).cube.map Mesh.color) = some col ∧
    ((EnhancedScene.onScaleInput sc s).cube.map Mesh.scale) =
      some { x := sc, y := sc, z := sc } := by
  refine ⟨rfl, rfl, (animate_fields_enhanced env s).2.1, ?_, ?_, ?_, ?_⟩
  · cases hp : s.particles <;>
      simp [EnhancedScene.animate, h1, h2, hp, EnhancedScene.controlsEnabledFlag, h3, h4]
  · cases hp : s.particles <;>
      simp [EnhancedScene.animate, h1, h2, hp, EnhancedScene.controlsEnabledFlag, h3, h4]
  · simp [EnhancedScene.onColorInput, h2]
  · simp [EnhancedScene.onScaleInput, h2]

/-- C6 witness: the controls applied to the concrete running enhanced scene. -/
theorem c6_enhanced_controls_witness :
    (EnhancedScene.onRotationSpeedInput (1/20) sampleEnhancedRunning).rotationSpeed =
      1/20 ∧
    (((EnhancedScene.animate e0 sampleEnhancedRunning).1).cube.map fun m =>
      m.rotation.x) = some (0 + 1/100) ∧
    ((EnhancedScene.onColorInput 0xff0000 sampleEnhancedRunning).cube.map Mesh.color) =
      some 0xff0000 ∧
    ((EnhancedScene.onScaleInput 2 sampleEnhancedRunning).cube.map Mesh.scale) =
      some { x := 2, y := 2, z := 2 } := by
  have h := c6_enhanced_controls e0 sampleEnhancedRunning
    { rotation := { x := 0, y := 0, z := 0 }, position := { x := 0, y := 0, z := 0 },
      scale := { x := 1, y := 1, z := 1 }, color := 0x6366f1 }
    { enabled := true, enableDamping := true, dampingFactor := 1/20,
      enableZoom := true, enablePan := true, enableRotate := true,
      maxDistance := 20, minDistance := 2, maxPolarAngle := 3 }
    (1/20) 2 0xff0000 rfl rfl rfl rfl
  exact ⟨h.1, h.2.2.2.1, h.2.2.2.2.2.1, h.2.2.2.2.2.2⟩

/-- C7 counterexample: the claim as stated says dispose leaves no frame callback
scheduled. In the double-scheduled state the code itself reaches after the first
showEnhancedView call (pending callbacks 1 and 2, animationId 2) — the state the
enhanced scene is in when App.dispose runs on page unload after the enhanced view was
entered — dispose's internal pause cancels only callback 2 and leaves callback 1
scheduled. -/
theorem c7_dispose_leaves_callback :
    ((EnhancedScene.dispose enhancedAfterFirstShow).1).pending = [1] ∧
    ¬ ((EnhancedScene.dispose enhancedAfterFirstShow).1).pending = [] := by
  constructor
  · decide
  · decide

/-- C7 amended: dispose on either scene first stops the animation — isAnimating becomes
false and the frame callback recorded in animationId is cancelled, which in the
single-loop regime (every pending callback is the one recorded in animationId, which
holds unless resume was called on an already-running scene) leaves no frame callback
scheduled — and then forwards cleanup to the library: it disposes the renderer and,
traversing every object of the scene in order, each object's geometry and each of its
materials (single or array); the enhanced scene additionally disposes its orbit controls
first. -/
theorem c7_dispose (sb : BasicScene) (se : EnhancedScene)
    (objsB objsE : List Obj)
    (h1 : sb.scene = some objsB) (h2 : sb.renderer.isSome = true)
    (h3 : se.scene = some objsE) (h4 : se.renderer.isSome = true)
    (h5 : se.controls.isSome = true)
    (h6 : trackedPend sb.animationId sb.pending)
    (h7 : trackedPend se.animationId se.pending) :
    ((BasicScene.dispose sb).1).isAnimating = false ∧
    ((BasicScene.dispose sb).1).pending = [] ∧
    (BasicScene.dispose sb).2 =
      Effect.disposeRenderer :: (objsB.map disposeObjEffects).flatten ∧
    ((EnhancedScene.dispose se).1).isAnimating = false ∧
    ((EnhancedScene.dispose se).1).pending = [] ∧
    (EnhancedScene.dispose se).2 =
      Effect.disposeControls :: Effect.disposeRenderer ::
        (objsE.map disposeObjEffects).flatten := by
  obtain ⟨rb, hrb⟩ := Option.isSome_iff_exists.mp h2
  obtain ⟨re, hre⟩ := Option.isSome_iff_exists.mp h4
  obtain ⟨ce, hce⟩ := Option.isSome_iff_exists.mp h5
  refine ⟨rfl, ?_, ?_, rfl, ?_, ?_⟩
  · simp [BasicScene.dispose, BasicScene.pause,
      cancelPending_eq_nil sb.animationId sb.pending h6]
  · simp [BasicScene.dispose, BasicScene.pause, h1, hrb]
  · simp [EnhancedScene.dispose, EnhancedScene.pause,
      cancelPending_eq_nil se.animationId se.pending h7]
  · simp [EnhancedScene.dispose, EnhancedScene.pause, h3, hre, hce]

/-- C7 witness: dispose applied to the two concrete running sample scenes (the enhanced
one's scene graph contains an array-material object, exercising the array branch). -/
theorem c7_dispose_witness :
    ((BasicScene.dispose sampleBasicRunning).1).pending = [] ∧
    (BasicScene.dispose sampleBasicRunning).2 =
      Effect.disposeRenderer ::
        (BasicScene.basicSceneObjects.map disposeObjEffects).flatten ∧
    (EnhancedScene.dispose sampleEnhancedRunning).2 =
      Effect.disposeControls :: Effect.disposeRenderer ::
        (((EnhancedScene.enhancedSceneObjects ++
            [ ({ geometry := some 9, material := MaterialSlot.array [7, 8] } : Obj) ]).map
          disposeObjEffects).flatten) := by
  have h := c7_dispose sampleBasicRunning sampleEnhancedRunning
    BasicScene.basicSceneObjects
    (EnhancedScene.enhancedSceneObjects ++
      [ ({ geometry := some 9, material := MaterialSlot.array [7, 8] } : Obj) ])
    rfl rfl rfl rfl rfl (by decide) (by decide)
  exact ⟨h.2.1, h.2.2.1, h.2.2.2.2.2⟩

/-- C10: a window resize is routed only to the scene of the current view: in the basic
view the enhanced scene is untouched and the basic scene (if any) gets its resize
handler, and symmetrically in the enhanced view; a scene's own resize handler is a no-op
when its camera or renderer is null, and otherwise updates exactly the camera aspect and
the renderer size from the new window dimensions. -/
theorem c10_resize_routing (w : Window) (a : AppState) (s : BasicScene)
    (e : EnhancedScene) (cam : Camera) (r : Renderer) :
    (a.currentView = View.basic →
      (App.handleWindowResize w a).enhancedScene = a.enhancedScene ∧
      (App.handleWindowResize w a).basicScene =
        a.basicScene.map (BasicScene.onWindowResize w)) ∧
    (a.currentView = View.enhanced →
      (App.handleWindowResize w a).basicScene = a.basicScene ∧
      (App.handleWindowResize w a).enhancedScene =
        a.enhancedScene.map (EnhancedScene.onWindowResize w)) ∧
    (s.camera = none ∨ s.renderer = none → BasicScene.onWindowResize w s = s) ∧
    (e.camera = none ∨ e.renderer = none → EnhancedScene.onWindowResize w e = e) ∧
    (s.camera = some cam → s.renderer = some r →
      (BasicScene.onWindowResize w s).camera =
        some { cam with aspect := w.innerWidth / w.innerHeight } ∧
      (BasicScene.onWindowResize w s).renderer =
        some { r with width := w.innerWidth, height := w.innerHeight }) ∧
    (e.camera = some cam → e.renderer = some r →
      (EnhancedScene.onWindowResize w e).camera =
        some { cam with aspect := w.innerWidth / w.innerHeight } ∧
      (EnhancedScene.onWindowResize w e).renderer =
        some { r with width := w.innerWidth, height := w.innerHeight }) := by
  refine ⟨?_, ?_, ?_, ?_, ?_, ?_⟩
  · intro hv
    cases hb : a.basicScene <;>
      simp [App.handleWindowResize, hv, hb]
  · intro hv
    cases he : a.enhancedScene <;>
      simp [App.handleWindowResize, hv, he]
  · intro hor
    cases hor with
    | inl h => cases hc : s.camera <;> simp [BasicScene.onWindowResize, hc, h] at h ⊢
    | inr h =>
        cases hc : s.camera <;> cases hr : s.renderer <;>
          simp [BasicScene.onWindowResize, hc, hr, h] at h ⊢
  · intro hor
    cases hor with
    | inl h => cases hc : e.camera <;> simp [EnhancedScene.onWindowResize, hc, h] at h ⊢
    | inr h =>
        cases hc : e.camera <;> cases hr : e.renderer <;>
          simp [EnhancedScene.onWindowResize, hc, hr, h] at h ⊢
  · intro hc hr
    simp [BasicScene.onWindowResize, hc, hr]
  · intro hc hr
    simp [EnhancedScene.onWindowResize, hc, hr]

/-- C10 witness: the resize routing evaluated in the basic view of a freshly started app
and on the concrete running scenes. -/
theorem c10_resize_routing_witness :
    (App.handleWindowResize w0 (App.initApp w0)).enhancedScene =
      (App.initApp w0).enhancedScene ∧
    (BasicScene.onWindowResize w0 (BasicScene.mkNew 0)) = BasicScene.mkNew 0 ∧
    (BasicScene.onWindowResize w0 sampleBasicRunning).camera =
      some { fov := 75, aspect := 1/1, near := 1/10, far := 1000, posZ := 5 } := by
  have h := c10_resize_routing w0 (App.initApp w0) sampleBasicRunning
    (EnhancedScene.mkNew 0)
    { fov := 75, aspect := 1, near := 1/10, far := 1000, posZ := 5 }
    { width := 1, height := 1, shadowEnabled := true }
  have h2 := c10_resize_routing w0 (App.initApp w0) (BasicScene.mkNew 0)
    (EnhancedScene.mkNew 0)
    { fov := 75, aspect := 1, near := 1/10, far := 1000, posZ := 5 }
    { width := 1, height := 1, shadowEnabled := true }
  refine ⟨(h.1 rfl).1, ?_, ?_⟩
  · exact h2.2.2.1 (Or.inl rfl)
  · exact (h.2.2.2.2.1 rfl rfl).1

theorem showEnhancedView_viewInvariant (env : Env) (w : Window) (a : AppState) :
    App.viewInvariant (App.showEnhancedView env w a) = true := by
  simp only [App.showEnhancedView, App.ensureEnhancedScene]
  cases he : a.enhancedScene <;>
    cases hb : a.basicScene <;>
      simp [App.viewInvariant, BasicScene.pause]

theorem showBasicView_viewInvariant (a : AppState) :
    App.viewInvariant (App.showBasicView a) = true := by
  simp only [App.showBasicView]
  cases he : a.enhancedScene <;>
    cases hb : a.basicScene <;>
      simp [App.viewInvariant, EnhancedScene.pause]

theorem runSwitches_viewInvariant (evs : List App.SwitchEv) :
    ∀ a : AppState, App.viewInvariant a = true →
      App.viewInvariant (App.runSwitches evs a) = true := by
  induction evs with
  | nil => intro a h; exact h
  | cons ev t ih =>
      intro a h
      have hstep : App.viewInvariant (App.step ev a) = true := by
        obtain ⟨k, env, win⟩ := ev
        cases k with
        | toEnhanced => exact showEnhancedView_viewInvariant env win a
        | toBasic => exact showBasicView_viewInvariant a
      exact ih (App.step ev a) hstep

/-- C2: after app init and any sequence of showEnhancedView and showBasicView calls,
exactly one of the two view panels carries the active class, it is the one named by
currentView, and the scene of the other view, when it exists, is paused (its isAnimating
flag is false). -/
theorem c2_view_exclusion (w : Window) (evs : List App.SwitchEv) :
    App.viewInvariant (App.runSwitches evs (App.initApp w)) = true := by
  apply runSwitches_viewInvariant
  rfl

theorem showBasicView_ownership (a : AppState)
    (h : App.ownershipInv a = true) : App.ownershipInv (App.showBasicView a) = true := by
  simp only [App.showBasicView]
  cases he : a.enhancedScene <;> cases hb : a.basicScene <;>
    simp only [App.ownershipInv, he, hb, Bool.and_eq_true, beq_iff_eq] at h ⊢ <;>
    simp_all [EnhancedScene.pause, resume_instId_basic]

theorem showEnhancedView_ownership (env : Env) (w : Window) (a : AppState)
    (h : App.ownershipInv a = true) :
    App.ownershipInv (App.showEnhancedView env w a) = true := by
  simp only [App.showEnhancedView, App.ensureEnhancedScene]
  cases he : a.enhancedScene <;> cases hb : a.basicScene <;>
    simp only [App.ownershipInv, he, hb, Bool.and_eq_true, beq_iff_eq] at h ⊢ <;>
    simp_all [BasicScene.pause, resume_instId_enhanced, init_instId_enhanced,
      EnhancedScene.mkNew]

theorem runSwitches_ownership (evs : List App.SwitchEv) :
    ∀ a : AppState, App.ownershipInv a = true →
      App.ownershipInv (App.runSwitches evs a) = true := by
  induction evs with
  | nil => intro a h; exact h
  | cons ev t ih =>
      intro a h
      have hstep : App.ownershipInv (App.step ev a) = true := by
        obtain ⟨k, env, win⟩ := ev
        cases k with
        | toEnhanced => exact showEnhancedView_ownership env win a h
        | toBasic => exact showBasicView_ownership a h
      exact ih (App.step ev a) hstep

theorem initApp_ownership (w : Window) : App.ownershipInv (App.initApp w) = true := by
  have h0 : ((BasicScene.init stdDom "basic-scene" w (BasicScene.mkNew 0)).1).instId = 0 := by
    simp only [BasicScene.init]
    split
    · rw [animate_instId_basic]
      rfl
    · rfl
  simp only [App.initApp, App.ownershipInv]
  simp [h0]

/-- C5: each view owns exactly one scene instance. Over every sequence of view switches
from app startup, the ownership invariant holds: the basic scene is always the single
instance constructed at startup (identity 0, one construction) and the enhanced scene is
constructed at most once, lazily, as instance 1. Moreover a showEnhancedView call that
finds an existing enhanced scene resumes exactly that instance, constructs nothing (the
construction counter is unchanged) and leaves the basic scene object in place, merely
paused. -/
theorem c5_single_instance :
    (∀ (w : Window) (evs : List App.SwitchEv),
        App.ownershipInv (App.runSwitches evs (App.initApp w)) = true) ∧
    (∀ (env : Env) (w : Window) (a : AppState) (e : EnhancedScene),
        a.enhancedScene = some e →
          (App.showEnhancedView env w a).enhancedScene =
            some ((EnhancedScene.resume env e).1) ∧
          (App.showEnhancedView env w a).enhCreated = a.enhCreated ∧
          (App.showEnhancedView env w a).basicScene =
            a.basicScene.map BasicScene.pause) := by
  constructor
  · intro w evs
    exact runSwitches_ownership evs (App.initApp w) (initApp_ownership w)
  · intro env w a e he
    refine ⟨?_, ?_, ?_⟩ <;>
      simp [App.showEnhancedView, App.ensureEnhancedScene, he]

/-- C5 witness: a second showEnhancedView call on the app state reached by the first one
reuses the stored enhanced scene instance and constructs nothing. -/
theorem c5_single_instance_witness :
    (App.showEnhancedView e0 w0 appAfterFirstShow).enhancedScene =
      some ((EnhancedScene.resume e0 enhancedAfterFirstShow).1) ∧
    (App.showEnhancedView e0 w0 appAfterFirstShow).enhCreated =
      appAfterFirstShow.enhCreated := by
  have h := c5_single_instance.2 e0 w0 appAfterFirstShow enhancedAfterFirstShow rfl
  exact ⟨h.1, h.2.1⟩

end ThreeJS
